import Mathlib

/-!
Verification of the PowerBiMLaaS AI-analytics translation pipeline.

The visible sources are the frontend components
(`AIAnalyticsDashboard.tsx`, `DashboardBuilder.tsx`, `PromptToDAX.tsx`,
`PowerBIExport.tsx`) plus startup scripts and documentation.  The frontend
pieces are embedded directly from the TypeScript source; the backend core
(Consistency Validator, Translation Cache) is absent from the sources and is
modelled from the specification where indicated.
-/

namespace PowerBiMLaaS

/-- JavaScript `String.prototype.trim` on the character list of a string:
drop leading and trailing whitespace. -/
def jsTrim (s : String) : String :=
  String.mk (((s.data.dropWhile Char.isWhitespace).reverse.dropWhile
    Char.isWhitespace).reverse)

/-- One row of `information_schema.columns` as consulted by the schema query
in `DashboardBuilder.tsx`. -/
structure InfoSchemaColumn where
  table_name : String
  column_name : String
  data_type : String
  is_nullable : String
  ordinal_position : Nat
deriving Repr, DecidableEq

/-- The projected column metadata returned by the schema query: the triple
`(column_name, data_type, is_nullable)`. -/
structure ColumnMeta where
  column_name : String
  data_type : String
  is_nullable : String
deriving Repr, DecidableEq

/-- The rows produced by `SELECT .. FROM information_schema.columns WHERE
table_name = $1 ORDER BY ordinal_position`: the catalog rows of the table,
sorted by ordinal position. -/
def schemaQueryRows (catalog : List InfoSchemaColumn) (table : String) :
    List InfoSchemaColumn :=
  (catalog.filter (fun r => r.table_name == table)).mergeSort
    (fun a b => decide (a.ordinal_position ≤ b.ordinal_position))

/-- The projection applied to each returned row of the schema query. -/
def projectColumnMeta (r : InfoSchemaColumn) : ColumnMeta :=
  { column_name := r.column_name, data_type := r.data_type,
    is_nullable := r.is_nullable }

/-- `fetchTableSchema` from `DashboardBuilder.tsx`: the single read-only
schema query, modelled over a catalog of `information_schema.columns` rows. -/
def fetchTableSchema (catalog : List InfoSchemaColumn) (table : String) :
    List ColumnMeta :=
  (schemaQueryRows catalog table).map projectColumnMeta

/-- A minimal JSON value model for request bodies and export descriptors. -/
inductive JValue where
  | str (s : String)
  | arr (xs : List JValue)
  | obj (fields : List (String × JValue))
deriving Repr

/-- The key list of a JSON object. -/
def jKeys : JValue → List String
  | .obj fields => fields.map Prod.fst
  | _ => []

/-- Field lookup in a JSON object. -/
def jLookup (j : JValue) (key : String) : Option JValue :=
  match j with
  | .obj fields => (fields.find? (fun f => f.1 == key)).map Prod.snd
  | _ => none

/-- The JSON body sent by `handleGenerateDashboard` in `DashboardBuilder.tsx`:
`JSON.stringify` of the table name, the prompt, and the fetched columns
mapped to `name`/`type` objects. -/
def buildRequestBody (table prompt : String) (columns : List ColumnMeta) :
    JValue :=
  .obj [("table", .str table),
        ("prompt", .str prompt),
        ("columns", .arr (columns.map (fun c =>
          .obj [("name", .str c.column_name), ("type", .str c.data_type)])))]

/-- The fields of the generation endpoint's JSON response that may arrive at
the frontend; the handler reads only `dax` and `sql`. -/
structure GenerateResponse where
  sql : Option String
  dax : Option String
  status : Option String
  reason : Option String
deriving Repr, DecidableEq

/-- The outcome of the fetch to `/api/generate-dashboard` as observed by
`handleGenerateDashboard`. -/
inductive FetchOutcome where
  | fetchThrew
  | notOk
  | ok (data : GenerateResponse)
deriving Repr, DecidableEq

/-- The `DashboardBuilder` component state touched by
`handleGenerateDashboard`. -/
structure BuilderState where
  generatedDAX : String
  generatedSQL : String
  error : Option String
  loading : Bool
deriving Repr, DecidableEq

/-- `handleGenerateDashboard` from `DashboardBuilder.tsx` as a state
transformer: on a successful response both code panels are overwritten, a
missing label defaulting to the empty string via `data.dax || ''` and
`data.sql || ''`; on a thrown fetch or a non-ok response only the error
message is set; `loading` is reset in the `finally` block. -/
def handleGenerateDashboard (s : BuilderState) (outcome : FetchOutcome) :
    BuilderState :=
  match outcome with
  | .ok data =>
      { s with error := none,
               generatedDAX := data.dax.getD "",
               generatedSQL := data.sql.getD "",
               loading := false }
  | _ =>
      { s with error := some "Failed to generate dashboard. Please try again.",
               loading := false }

/-- The render guard on the export panel in `DashboardBuilder.tsx`: the
`PowerBIExport` component is mounted exactly when `generatedDAX` is a
non-empty (truthy) string. -/
def exportAvailable (s : BuilderState) : Bool :=
  s.generatedDAX != ""

/-- `handleSubmit` from `PromptToDAX.tsx`: it calls
`onGenerate(prompt.trim())` only when the trimmed prompt is truthy
(non-empty) and not loading; the result is the prompt delivered to the
generation handler, if any. -/
def handleSubmit (prompt : String) (loading : Bool) : Option String :=
  if jsTrim prompt != "" && !loading then some (jsTrim prompt) else none

/-- A downloadable artifact: the filename given to the anchor `download`
attribute and the blob content. -/
structure DownloadFile where
  filename : String
  content : String
deriving Repr, DecidableEq

/-- `generatePBIDS` from `PowerBIExport.tsx`: the filename and JSON content
of the .pbids connection descriptor. -/
def generatePBIDS (apiBaseUrl table : String) : String × JValue :=
  (table ++ "_dashboard.pbids",
   .obj [("version", .str "1.0"),
         ("connections", .arr [
           .obj [("filePath",
                  .str (apiBaseUrl ++ "/api/dashboard/" ++ table ++ "/data")),
                 ("name", .str table)]])])

/-- `downloadDAX` from `PowerBIExport.tsx`. -/
def downloadDAX (table daxCode : String) : DownloadFile :=
  { filename := table ++ "_dashboard.dax", content := daxCode }

/-- `downloadSQL` from `PowerBIExport.tsx`. -/
def downloadSQL (table sqlCode : String) : DownloadFile :=
  { filename := table ++ "_query.sql", content := sqlCode }

end PowerBiMLaaS

namespace PowerBiMLaaS

/-- True of characters admissible in a bare identifier. -/
def isIdentChar (c : Char) : Bool := c.isAlphanum || c == '_'

/-- Split a character list into maximal identifier-shaped tokens, discarding
separator characters; the accumulator holds the current token reversed. -/
def tokenizeIdents : List Char → List Char → List String
  | [], acc => if acc.isEmpty then [] else [String.mk acc.reverse]
  | c :: cs, acc =>
      if isIdentChar c then tokenizeIdents cs (c :: acc)
      else if acc.isEmpty then tokenizeIdents cs []
      else String.mk acc.reverse :: tokenizeIdents cs []

/-- Lowercase a string character-wise. -/
def lowerString (s : String) : String := String.mk (s.data.map Char.toLower)

/-- Modelled from the spec: the SQL keywords excluded when extracting
candidate bare column identifiers (§4.4 step 1); the backend Consistency
Validator is not among the visible sources. -/
def sqlKeyword (t : String) : Bool :=
  ["select", "from", "where", "group", "by", "order", "as", "and", "or",
   "asc", "desc", "on", "join", "inner", "left", "right", "limit",
   "distinct", "having", "count", "sum", "avg", "min", "max"].contains
    (lowerString t)

/-- Modelled from the spec: extraction of candidate bare column identifiers
from `sql_text` (§4.4 step 1) — identifier-shaped tokens that are neither
SQL keywords (case-insensitive) nor numeric literals; the backend
Consistency Validator is not among the visible sources. -/
def extractSqlIdents (sql_text : String) : List String :=
  (tokenizeIdents sql_text.data []).filter
    (fun t => !sqlKeyword t && !(t.data.all Char.isDigit))

/-- Scanner for bracketed references: collects the content of each
`[` .. `]` pair; the accumulator holds the current bracket content reversed
when inside a bracket. -/
def daxBracketed : List Char → Option (List Char) → List String
  | [], _ => []
  | c :: cs, none =>
      if c == '[' then daxBracketed cs (some []) else daxBracketed cs none
  | c :: cs, some acc =>
      if c == ']' then String.mk acc.reverse :: daxBracketed cs none
      else daxBracketed cs (some (c :: acc))

/-- Modelled from the spec: extraction of the column parts of
`table[column]` bracketed references from `dax_text` (§4.4 step 1); the
backend Consistency Validator is not among the visible sources. -/
def extractDaxIdents (dax_text : String) : List String :=
  daxBracketed dax_text.data none

/-- Translation result status. -/
inductive Status where
  | Accepted
  | Rejected
deriving Repr, DecidableEq

/-- The raw output of the Dual-Code Generator: labeled SQL and DAX texts. -/
structure RawGenerationOutput where
  sql_text : String
  dax_text : String
deriving Repr, DecidableEq

/-- The result of the translation pipeline. -/
structure TranslationResult where
  sql : String
  dax : String
  status : Status
  rejection_reason : Option String
deriving Repr, DecidableEq

/-- The column names of a schema snapshot. -/
def columnNames (schema : List ColumnMeta) : List String :=
  schema.map (fun c => c.column_name)

/-- All bare column identifiers the validator extracts from a raw
generation output, from the SQL text and the DAX text. -/
def extractedIdents (raw : RawGenerationOutput) : List String :=
  extractSqlIdents raw.sql_text ++ extractDaxIdents raw.dax_text

/-- Modelled from the spec: the Consistency Validator `validate` (§4.4) —
reject with reason `UnknownColumn: <name>` when an extracted identifier is
absent from the schema's column names, reject with `EmptyGeneration` when
both texts are empty, otherwise accept; the backend Consistency Validator is
not among the visible sources. -/
def validate (raw : RawGenerationOutput) (schema : List ColumnMeta) :
    TranslationResult :=
  match (extractedIdents raw).find?
      (fun ident => !(columnNames schema).contains ident) with
  | some bad =>
      { sql := raw.sql_text, dax := raw.dax_text, status := .Rejected,
        rejection_reason := some ("UnknownColumn: " ++ bad) }
  | none =>
      if raw.sql_text == "" && raw.dax_text == "" then
        { sql := raw.sql_text, dax := raw.dax_text, status := .Rejected,
          rejection_reason := some "EmptyGeneration" }
      else
        { sql := raw.sql_text, dax := raw.dax_text, status := .Accepted,
          rejection_reason := none }

/-- A translation request: table, schema snapshot, prompt. -/
structure TranslationRequest where
  table : String
  schema : List ColumnMeta
  prompt : String
deriving Repr, DecidableEq

/-- Modelled from the spec: the cache fingerprint — a deterministic encoding
of the table, the ordered column names and types, and the normalized prompt
(§3); the backend Translation Cache is not among the visible sources. -/
def fingerprint (r : TranslationRequest) : String :=
  r.table ++ "|" ++
  String.intercalate ","
    (r.schema.map (fun c => c.column_name ++ ":" ++ c.data_type)) ++
  "|" ++ jsTrim r.prompt

/-- Cache state: fingerprint-keyed entries plus a count of pipeline
computations, which counts generator invocations since each computation
invokes the generator once. -/
structure CacheState where
  entries : List (String × TranslationResult)
  generatorCalls : Nat
deriving Repr, DecidableEq

/-- The cache state before any request. -/
def emptyCache : CacheState := { entries := [], generatorCalls := 0 }

/-- Modelled from the spec: the Translation Cache `get_or_compute` (§4.5) —
return the entry stored under the request's fingerprint unchanged when
present, otherwise run the compile→generate→validate pipeline once and store
its result; the backend Translation Cache is not among the visible
sources. -/
def get_or_compute (st : CacheState) (r : TranslationRequest)
    (compute : TranslationRequest → TranslationResult) :
    TranslationResult × CacheState :=
  match st.entries.lookup (fingerprint r) with
  | some result => (result, st)
  | none =>
      let result := compute r
      (result, { entries := (fingerprint r, result) :: st.entries,
                 generatorCalls := st.generatorCalls + 1 })

end PowerBiMLaaS

namespace PowerBiMLaaS

/-- C1: for every Accepted TranslationResult produced by `validate`, every
bare column identifier extracted from its sql and dax texts is present in
the schema's column names; and whenever the raw generation output contains
an extracted identifier absent from the schema, `validate` returns Rejected
with reason `UnknownColumn: <name>` citing an absent identifier. -/
theorem validate_schema_grounding (raw : RawGenerationOutput)
    (schema : List ColumnMeta) :
    ((validate raw schema).status = Status.Accepted →
      ∀ ident ∈ extractedIdents raw, ident ∈ columnNames schema) ∧
    ((∃ ident ∈ extractedIdents raw, ident ∉ columnNames schema) →
      (validate raw schema).status = Status.Rejected ∧
      ∃ bad ∈ extractedIdents raw, bad ∉ columnNames schema ∧
        (validate raw schema).rejection_reason =
          some ("UnknownColumn: " ++ bad)) := by
  cases hfind : (extractedIdents raw).find?
      (fun ident => !(columnNames schema).contains ident) with
  | some bad =>
      refine ⟨fun hacc => ?_, fun hex => ?_⟩
      · exfalso
        unfold validate at hacc
        rw [hfind] at hacc
        simp at hacc
      · have hmem := List.mem_of_find?_eq_some hfind
        have hp := List.find?_some hfind
        refine ⟨?_, bad, hmem, ?_, ?_⟩
        · unfold validate
          rw [hfind]
        · simpa using hp
        · unfold validate
          rw [hfind]
  | none =>
      have hall := List.find?_eq_none.mp hfind
      refine ⟨fun hacc ident hid => ?_, fun hex => ?_⟩
      · have := hall ident hid
        simpa using this
      · rcases hex with ⟨ident, hid, hnot⟩
        exact absurd (by simpa using hall ident hid) hnot

/-- The raw generation output of the rejection scenario: DAX referencing a
column absent from the schema. -/
def c1Raw : RawGenerationOutput :=
  { sql_text := "", dax_text := "transactions[nonexistent_col]" }

/-- The schema snapshot of the rejection scenario. -/
def c1Schema : List ColumnMeta :=
  [{ column_name := "date", data_type := "timestamp", is_nullable := "NO" },
   { column_name := "fraud_flag", data_type := "integer", is_nullable := "NO" },
   { column_name := "amount", data_type := "numeric", is_nullable := "NO" }]

/-- Witness for C1: a generation output referencing `nonexistent_col`, a
column absent from the schema, is Rejected with reason citing it. -/
theorem validate_schema_grounding_witness :
    (validate c1Raw c1Schema).status = Status.Rejected ∧
    ∃ bad ∈ extractedIdents c1Raw, bad ∉ columnNames c1Schema ∧
      (validate c1Raw c1Schema).rejection_reason =
        some ("UnknownColumn: " ++ bad) :=
  (validate_schema_grounding c1Raw c1Schema).2 (by decide)

/-- C2: running the cached pipeline twice with the identical request returns
the identical result the second time, served from the cache entry stored
under the request's fingerprint, and the pipeline computation (one generator
invocation per computation) runs exactly once across both runs. -/
theorem pipeline_idempotent (req : TranslationRequest)
    (compute : TranslationRequest → TranslationResult) :
    (get_or_compute (get_or_compute emptyCache req compute).2 req compute).1 =
      (get_or_compute emptyCache req compute).1 ∧
    (get_or_compute (get_or_compute emptyCache req compute).2 req compute).2 =
      (get_or_compute emptyCache req compute).2 ∧
    ((get_or_compute emptyCache req compute).2).entries.lookup
        (fingerprint req) = some (get_or_compute emptyCache req compute).1 ∧
    ((get_or_compute (get_or_compute emptyCache req compute).2 req
        compute).2).generatorCalls = 1 := by
  simp [get_or_compute, emptyCache, List.lookup]

/-- C3: a prompt that is empty or consists only of whitespace never reaches
the generator: `handleSubmit` issues no generation call for it. -/
theorem empty_prompt_never_reaches_generator (prompt : String)
    (loading : Bool) (h : ∀ c ∈ prompt.data, c.isWhitespace) :
    handleSubmit prompt loading = none := by
  have h1 : prompt.data.dropWhile Char.isWhitespace = [] :=
    List.dropWhile_eq_nil_iff.mpr (fun c hc => by simpa using h c hc)
  have h2 : jsTrim prompt = "" := by simp [jsTrim, h1]
  simp [handleSubmit, h2]

/-- Witness for C3: a whitespace-only prompt issues no generation call. -/
theorem empty_prompt_never_reaches_generator_witness :
    handleSubmit "   " false = none :=
  empty_prompt_never_reaches_generator "   " false (by decide)

/-- C4: the schema fetch is the single ordered read-only query of
`DashboardBuilder.tsx`: its row set is exactly the catalog rows of the
requested table, its rows are ordered by ordinal position, and its output is
exactly those rows projected to the (column_name, data_type, is_nullable)
triple. -/
theorem fetchTableSchema_single_ordered_query
    (catalog : List InfoSchemaColumn) (table : String) :
    (schemaQueryRows catalog table).Perm
      (catalog.filter (fun r => r.table_name == table)) ∧
    (schemaQueryRows catalog table).Pairwise
      (fun a b => a.ordinal_position ≤ b.ordinal_position) ∧
    fetchTableSchema catalog table =
      (schemaQueryRows catalog table).map projectColumnMeta ∧
    (fetchTableSchema catalog table).Perm
      ((catalog.filter (fun r => r.table_name == table)).map
        projectColumnMeta) := by
  refine ⟨List.mergeSort_perm _ _, ?_, rfl,
    (List.mergeSort_perm _ _).map projectColumnMeta⟩
  have h := @List.sorted_mergeSort InfoSchemaColumn
    (fun a b => decide (a.ordinal_position ≤ b.ordinal_position))
    (fun a b c hab hbc => by simp_all; omega)
    (fun a b => by simp [Nat.le_total])
    (catalog.filter (fun r => r.table_name == table))
  exact h.imp (fun hab => by simpa using hab)

/-- C5 counterexample: the request body built by `handleGenerateDashboard`
does not consist of exactly the fields table and prompt — at a concrete
input its key list is table, prompt, columns. -/
theorem request_fields_counterexample :
    jKeys (buildRequestBody "transactions" "Show me total fraud by month"
      [{ column_name := "date", data_type := "timestamp",
         is_nullable := "NO" }]) ≠ ["table", "prompt"] := by decide

/-- C5 amended: the request from the caller to the core consists of exactly
the fields table, prompt and columns, where columns carries the name/type
pairs of the schema the caller itself fetched via the schema query. -/
theorem request_fields_amended (catalog : List InfoSchemaColumn)
    (table prompt : String) :
    jKeys (buildRequestBody table prompt (fetchTableSchema catalog table)) =
      ["table", "prompt", "columns"] ∧
    jLookup (buildRequestBody table prompt (fetchTableSchema catalog table))
      "table" = some (.str table) ∧
    jLookup (buildRequestBody table prompt (fetchTableSchema catalog table))
      "prompt" = some (.str prompt) ∧
    jLookup (buildRequestBody table prompt (fetchTableSchema catalog table))
      "columns" = some (.arr ((fetchTableSchema catalog table).map (fun c =>
        .obj [("name", .str c.column_name), ("type", .str c.data_type)]))) := by
  refine ⟨rfl, ?_, ?_, ?_⟩ <;> simp [jLookup, buildRequestBody, List.find?]

/-- C6: when the generation response lacks one labeled field, the missing
field is treated as the empty string, the other field is kept, and the call
still succeeds (no error is set). -/
theorem missing_label_defaults_empty (s : BuilderState) (sqlv daxv : String)
    (st rs : Option String) :
    ((handleGenerateDashboard s
        (.ok ⟨some sqlv, none, st, rs⟩)).generatedDAX = "" ∧
     (handleGenerateDashboard s
        (.ok ⟨some sqlv, none, st, rs⟩)).generatedSQL = sqlv ∧
     (handleGenerateDashboard s
        (.ok ⟨some sqlv, none, st, rs⟩)).error = none) ∧
    ((handleGenerateDashboard s
        (.ok ⟨none, some daxv, st, rs⟩)).generatedSQL = "" ∧
     (handleGenerateDashboard s
        (.ok ⟨none, some daxv, st, rs⟩)).generatedDAX = daxv ∧
     (handleGenerateDashboard s
        (.ok ⟨none, some daxv, st, rs⟩)).error = none) :=
  ⟨⟨rfl, rfl, rfl⟩, ⟨rfl, rfl, rfl⟩⟩

/-- A generation response carrying a non-accepted status together with
non-empty code fields. -/
def rejectedResponse : GenerateResponse :=
  { sql := some "SELECT 1", dax := some "CALCULATE(1)",
    status := some "rejected", reason := some "UnknownColumn: bogus" }

/-- C7 counterexample: a response whose status is not accepted but whose dax
field is non-empty still makes the export panel available — export is not
refused for a non-Accepted result. -/
theorem export_not_refused_for_rejected :
    rejectedResponse.status ≠ some "accepted" ∧
    exportAvailable (handleGenerateDashboard
      { generatedDAX := "", generatedSQL := "", error := none,
        loading := true } (.ok rejectedResponse)) = true :=
  ⟨by decide, by decide⟩

/-- C7 amended: the export panel is offered exactly when the generated DAX
text is non-empty, and the handler ignores any status or reason field of the
response — two responses agreeing on dax and sql produce identical states. -/
theorem export_guard_dax_only (s : BuilderState) (r r2 : GenerateResponse)
    (hdax : r.dax = r2.dax) (hsql : r.sql = r2.sql) :
    (exportAvailable s = true ↔ s.generatedDAX ≠ "") ∧
    handleGenerateDashboard s (.ok r) = handleGenerateDashboard s (.ok r2) := by
  refine ⟨by simp [exportAvailable], ?_⟩
  simp [handleGenerateDashboard, hdax, hsql]

/-- Witness for the amended C7 at a concrete state and two responses that
differ only in status and reason. -/
theorem export_guard_dax_only_witness :
    (exportAvailable ⟨"X", "", none, false⟩ = true ↔ ("X" : String) ≠ "") ∧
    handleGenerateDashboard ⟨"X", "", none, false⟩
      (.ok ⟨some "s", some "d", some "rejected", some "r"⟩) =
    handleGenerateDashboard ⟨"X", "", none, false⟩
      (.ok ⟨some "s", some "d", some "accepted", none⟩) :=
  export_guard_dax_only _ _ _ rfl rfl

/-- C8: whenever `handleSubmit` delivers a prompt to the generation handler,
that prompt is the textarea input with leading and trailing whitespace
removed, and it is non-empty. -/
theorem delivered_prompt_trimmed (prompt : String) (loading : Bool)
    (sent : String) (h : handleSubmit prompt loading = some sent) :
    sent = jsTrim prompt ∧ sent ≠ "" := by
  unfold handleSubmit at h
  split at h
  · cases h
    rename_i hc
    refine ⟨rfl, ?_⟩
    have h1 := ((Bool.and_eq_true _ _).mp hc).1
    simpa using h1
  · cases h

/-- Witness for C8: submitting a padded prompt delivers its trimmed,
non-empty form. -/
theorem delivered_prompt_trimmed_witness :
    ("hi" : String) = jsTrim "  hi " ∧ ("hi" : String) ≠ "" :=
  delivered_prompt_trimmed "  hi " false "hi" (by decide)

/-- C9: when the generation call fails (thrown fetch or non-ok response),
the previously displayed generated DAX and SQL are left unchanged and only
the error message is set. -/
theorem failure_preserves_generated_code (s : BuilderState)
    (o : FetchOutcome)
    (h : o = FetchOutcome.fetchThrew ∨ o = FetchOutcome.notOk) :
    (handleGenerateDashboard s o).generatedDAX = s.generatedDAX ∧
    (handleGenerateDashboard s o).generatedSQL = s.generatedSQL ∧
    (handleGenerateDashboard s o).error =
      some "Failed to generate dashboard. Please try again." := by
  rcases h with h | h <;> subst h <;> exact ⟨rfl, rfl, rfl⟩

/-- Witness for C9: a non-ok response leaves previously generated code in
place and sets the error message. -/
theorem failure_preserves_generated_code_witness :
    (handleGenerateDashboard ⟨"OLD_DAX", "OLD_SQL", none, true⟩
      FetchOutcome.notOk).generatedDAX = "OLD_DAX" ∧
    (handleGenerateDashboard ⟨"OLD_DAX", "OLD_SQL", none, true⟩
      FetchOutcome.notOk).generatedSQL = "OLD_SQL" ∧
    (handleGenerateDashboard ⟨"OLD_DAX", "OLD_SQL", none, true⟩
      FetchOutcome.notOk).error =
      some "Failed to generate dashboard. Please try again." :=
  failure_preserves_generated_code _ _ (Or.inr rfl)

/-- C10: the exported artifacts are deterministic functions of their inputs:
the .pbids descriptor is exactly the version/connections JSON with the
API-derived filePath and the table name, the DAX and SQL files carry exactly
the code strings passed in, and the three filenames are
table_dashboard.pbids, table_dashboard.dax and table_query.sql. -/
theorem export_artifacts_deterministic
    (apiBaseUrl table daxCode sqlCode : String) :
    generatePBIDS apiBaseUrl table =
      (table ++ "_dashboard.pbids",
       JValue.obj [("version", JValue.str "1.0"),
         ("connections", JValue.arr [JValue.obj
           [("filePath",
             JValue.str (apiBaseUrl ++ "/api/dashboard/" ++ table ++ "/data")),
            ("name", JValue.str table)]])]) ∧
    downloadDAX table daxCode =
      { filename := table ++ "_dashboard.dax", content := daxCode } ∧
    downloadSQL table sqlCode =
      { filename := table ++ "_query.sql", content := sqlCode } :=
  ⟨rfl, rfl, rfl⟩

end PowerBiMLaaS
